import Mathlib

/-!
Verification of the chat/relay server (Express + in-memory / database storage).

The definitions below are a shallow embedding of the TypeScript sources:

* `src/server/storage.ts` — `MemStorage` and `DatabaseStorage` (maps become
  association lists whose keys are unique; `Map.set` on an existing key is an
  in-place replacement, `Map.delete` reports whether the key was present).
* `src/server/routes.ts` — the development server's route handlers.
* `src/server/prod.ts` — the production server's route handlers.

Conventions: JavaScript `undefined`/`null` string fields are `Option String`
(`none` = absent); `Date` values are abstract `Nat` ticks supplied by the
caller; fresh `randomUUID()` identifiers are explicit `freshId` parameters;
`bcrypt` is an abstract `BcryptApi` parameter since its internals are not part
of this repository.  Every handler is embedded as a pure function of its
inputs plus the storage state it reads and writes.
-/

namespace ChatApp

/-- JavaScript `hay.includes(needle)`: substring test on the character list. -/
def jsIncludes (hay needle : String) : Bool :=
  hay.data.tails.any (fun t => needle.data.isPrefixOf t)

/-- The ASCII fragment of JavaScript `s.toLowerCase()`.  The full
`toLowerCase` is the JS runtime's Unicode simple case mapping — code outside
this repository, like `bcrypt` — so the relay model below takes the
case-folding function as a parameter; `jsToLower` only instantiates it at
concrete inputs whose characters are ASCII or already lowercase, where it
coincides with the runtime's mapping. -/
def jsToLower (s : String) : String :=
  ⟨s.data.map Char.toLower⟩

/-! ## Data model (shared/schema.ts rows, as they exist at runtime) -/

/-- Row of the `users` table / `MemStorage.users` map value. -/
structure User where
  id : String
  username : String
  password : String
  createdAt : Nat
deriving DecidableEq, Repr

/-- Row of the `settings` table / `MemStorage.settings` map value. -/
structure Setting where
  id : String
  key : String
  value : String
deriving DecidableEq, Repr

/-- Row of the `chats` table / `MemStorage.chats` map value.  The route
handlers pass `req.body.title` through untyped, so at runtime a chat created
without a title stores `undefined`; hence `title : Option String`. -/
structure Chat where
  id : String
  userId : Option String
  title : Option String
  createdAt : Nat
  updatedAt : Nat
deriving DecidableEq, Repr

/-- Row of the `messages` table / `MemStorage.messages` map value. -/
structure Message where
  id : String
  chatId : String
  type : String
  content : String
  createdAt : Nat
deriving DecidableEq, Repr

/-- Log severity, the `'info' | 'error' | 'warn'` union in storage.ts. -/
inductive LogLevel where
  | info
  | error
  | warn
deriving DecidableEq, Repr

/-- Entry of the in-memory log buffer (`LogEntry` in storage.ts).  The ISO
timestamp string is abstracted to a `Nat` tick. -/
structure LogEntry where
  id : String
  timestamp : Nat
  level : LogLevel
  message : String
  data : Option String
deriving DecidableEq, Repr

/-- The record/table state shared by both storage backends.  `MemStorage`
keeps maps keyed by `id` (or `key` for settings); the lists below hold the map
values in insertion order with unique keys, and `DatabaseStorage` tables are
modelled by the same lists of rows. -/
structure StoreState where
  users : List User
  settings : List Setting
  chats : List Chat
  messages : List Message
deriving DecidableEq, Repr

/-- The empty storage state (a freshly constructed backend). -/
def emptyStore : StoreState :=
  { users := [], settings := [], chats := [], messages := [] }

/-! ## storage.ts operations -/

/-- `MemStorage.getSettingByKey` / `DatabaseStorage.getSettingByKey`:
lookup of the setting stored under `key`. -/
def findSetting (settings : List Setting) (key : String) : Option Setting :=
  settings.find? (fun st => st.key == key)

/-- `MemStorage.upsertSetting(key, value)`: if a setting with this key exists,
replace it by `{ ...existing, value }` (the `Map.set` on an existing key keeps
the entry's position); otherwise insert a new setting with a fresh id.
Returns the new settings map and the returned `Setting`. -/
def upsertSetting (settings : List Setting) (freshId key value : String) :
    List Setting × Setting :=
  match findSetting settings key with
  | some existing =>
      let updated : Setting := { existing with value := value }
      (settings.map (fun st => if st.key == key then updated else st), updated)
  | none =>
      let setting : Setting := { id := freshId, key := key, value := value }
      (settings ++ [setting], setting)

/-- `DatabaseStorage.upsertSetting(key, value)`: `getSettingByKey` then either
`UPDATE settings SET value WHERE key = key RETURNING *` (which rewrites the
value of every row with that key, the key being unique by constraint) or
`INSERT INTO settings (key, value) RETURNING *` with a database-generated id. -/
def dbUpsertSetting (settings : List Setting) (freshId key value : String) :
    List Setting × Setting :=
  match findSetting settings key with
  | some existing =>
      (settings.map (fun st => if st.key == key then { st with value := value } else st),
       { existing with value := value })
  | none =>
      (settings ++ [{ id := freshId, key := key, value := value }],
       { id := freshId, key := key, value := value })

/-- `MemStorage.addLog`: push the new entry, then cap the buffer with
`this.logs = this.logs.slice(-1000)` whenever its length exceeds 1000. -/
def addLog (logs : List LogEntry) (freshId : String) (now : Nat)
    (level : LogLevel) (message : String) (data : Option String) : List LogEntry :=
  let logEntry : LogEntry :=
    { id := freshId, timestamp := now, level := level, message := message, data := data }
  let pushed := logs ++ [logEntry]
  if 1000 < pushed.length then pushed.drop (pushed.length - 1000) else pushed

/-- `MemStorage.getLogs(limit)`: `this.logs.slice(-limit).reverse()`.  In
JavaScript `slice(-0)` is `slice(0)`, so `limit = 0` yields the whole buffer
(reversed); otherwise `slice(-limit)` keeps the last `limit` entries. -/
def getLogs (logs : List LogEntry) (limit : Nat) : List LogEntry :=
  if limit = 0 then logs.reverse
  else (logs.drop (logs.length - limit)).reverse

/-- `MemStorage.deleteChat(chatId)`: delete every message whose `chatId`
matches, then `this.chats.delete(chatId)`, whose result — whether the key was
present — is returned. -/
def memDeleteChat (s : StoreState) (chatId : String) : StoreState × Bool :=
  let existed := s.chats.any (fun c => c.id == chatId)
  ({ s with
      messages := s.messages.filter (fun m => !(m.chatId == chatId)),
      chats := s.chats.filter (fun c => !(c.id == chatId)) },
   existed)

/-- `DatabaseStorage.deleteChat(chatId)`: `DELETE FROM messages WHERE chat_id
= chatId`, then `DELETE FROM chats WHERE id = chatId`, then `return true`
unconditionally. -/
def dbDeleteChat (s : StoreState) (chatId : String) : StoreState × Bool :=
  ({ s with
      messages := s.messages.filter (fun m => !(m.chatId == chatId)),
      chats := s.chats.filter (fun c => !(c.id == chatId)) },
   true)

/-- Body of an `INSERT` into messages (`InsertMessage` in the schema). -/
structure InsertMessage where
  chatId : String
  type : String
  content : String
deriving DecidableEq, Repr

/-- `MemStorage.createMessage(insertMessage)`: store the message under a fresh
id unconditionally, then, only if a chat with `insertMessage.chatId` exists,
re-store that chat with a bumped `updatedAt`.  No existence check guards the
message insertion itself. -/
def memCreateMessage (s : StoreState) (freshId : String) (now : Nat)
    (im : InsertMessage) : StoreState × Message :=
  let message : Message :=
    { id := freshId, chatId := im.chatId, type := im.type, content := im.content,
      createdAt := now }
  let withMsg := { s with messages := s.messages ++ [message] }
  match withMsg.chats.find? (fun c => c.id == im.chatId) with
  | some chat =>
      ({ withMsg with
          chats := withMsg.chats.map
            (fun c => if c.id == im.chatId then { chat with updatedAt := now } else c) },
       message)
  | none => (withMsg, message)

/-- Body of an `INSERT` into chats (`InsertChat` in the schema), as the route
handlers actually populate it at runtime. -/
structure InsertChat where
  userId : Option String
  title : Option String
deriving DecidableEq, Repr

/-- `MemStorage.createChat(insertChat)`: build the chat record with
`userId: insertChat.userId || null` (JavaScript `||` maps an absent or empty
string to `null`) and `title: insertChat.title` taken verbatim, both
timestamps set to now, and append it to the chats map. -/
def memCreateChat (s : StoreState) (freshId : String) (now : Nat)
    (ic : InsertChat) : StoreState × Chat :=
  let chat : Chat :=
    { id := freshId,
      userId := match ic.userId with
                | some u => if u.isEmpty then none else some u
                | none => none,
      title := ic.title,
      createdAt := now,
      updatedAt := now }
  ({ s with chats := s.chats ++ [chat] }, chat)

/-- `MemStorage.getUserByUsername` / `DatabaseStorage.getUserByUsername`. -/
def findUserByUsername (users : List User) (username : String) : Option User :=
  users.find? (fun u => u.username == username)

/-! ## Auth handlers (routes.ts and prod.ts) -/

/-- The bcrypt library as the handlers use it: `hash saltRounds plain` and
`verify plain hashed` (the argument order of `bcrypt.compare`).  Its
implementation is outside this repository, so handlers are parameterized
over it. -/
structure BcryptApi where
  hash : Nat → String → String
  verify : String → String → Bool

/-- What an auth endpoint sends back: the HTTP status, the `error` field of
the JSON body (if any), and the user fields returned (and bound to the
session) on success. -/
structure AuthReply where
  status : Nat
  error : Option String
  userId : Option String
  username : Option String
deriving DecidableEq, Repr

/-- `POST /api/auth/register` in routes.ts: reject missing fields (JavaScript
falsiness: the empty string counts as missing) and duplicate usernames with
400, otherwise store a user whose password is `bcrypt.hash(password, 12)` and
answer with the user's id and username. -/
def routesRegister (api : BcryptApi) (users : List User) (freshId : String)
    (now : Nat) (username password : String) : List User × AuthReply :=
  if username.isEmpty || password.isEmpty then
    (users, { status := 400, error := some "Username and password required",
              userId := none, username := none })
  else match findUserByUsername users username with
  | some _ =>
      (users, { status := 400, error := some "Username already exists",
                userId := none, username := none })
  | none =>
      let hashedPassword := api.hash 12 password
      let user : User :=
        { id := freshId, username := username, password := hashedPassword, createdAt := now }
      (users ++ [user],
       { status := 200, error := none, userId := some user.id, username := some user.username })

/-- `POST /api/auth/login` in routes.ts: 400 on missing fields; 401 with the
body `Invalid credentials` when the username is unknown; otherwise
`bcrypt.compare(password, user.password)` decides between the same 401 reply
and a 200 reply that binds the session. -/
def routesLogin (api : BcryptApi) (users : List User)
    (username password : String) : AuthReply :=
  if username.isEmpty || password.isEmpty then
    { status := 400, error := some "Username and password required",
      userId := none, username := none }
  else match findUserByUsername users username with
  | none =>
      { status := 401, error := some "Invalid credentials", userId := none, username := none }
  | some user =>
      if api.verify password user.password then
        { status := 200, error := none, userId := some user.id, username := some user.username }
      else
        { status := 401, error := some "Invalid credentials", userId := none, username := none }

/-- `POST /api/auth/register` in prod.ts: identical shape to the routes.ts
handler except that `createUser({ username, password })` stores the supplied
password verbatim — no hashing. -/
def prodRegister (users : List User) (freshId : String) (now : Nat)
    (username password : String) : List User × AuthReply :=
  if username.isEmpty || password.isEmpty then
    (users, { status := 400, error := some "Username and password required",
              userId := none, username := none })
  else match findUserByUsername users username with
  | some _ =>
      (users, { status := 400, error := some "Username already exists",
                userId := none, username := none })
  | none =>
      let user : User :=
        { id := freshId, username := username, password := password, createdAt := now }
      (users ++ [user],
       { status := 200, error := none, userId := some user.id, username := some user.username })

/-- `POST /api/auth/login` in prod.ts: `if (!user || user.password !==
password)` answers 401, i.e. the stored password is compared to the supplied
one by plain string equality. -/
def prodLogin (users : List User) (username password : String) : AuthReply :=
  if username.isEmpty || password.isEmpty then
    { status := 400, error := some "Username and password required",
      userId := none, username := none }
  else match findUserByUsername users username with
  | none =>
      { status := 401, error := some "Invalid credentials", userId := none, username := none }
  | some user =>
      if user.password == password then
        { status := 200, error := none, userId := some user.id, username := some user.username }
      else
        { status := 401, error := some "Invalid credentials", userId := none, username := none }

/-! ## Chat-creation and message-creation routes -/

/-- Outcome of `POST /api/chats`. -/
inductive CreateChatResult where
  | unauthenticated
  | created (s : StoreState) (c : Chat)
deriving DecidableEq, Repr

/-- `POST /api/chats` (routes.ts; prod.ts is identical): 401 without a
session, otherwise `storage.createChat({ userId, title })` where `title` is
`req.body.title` taken verbatim — no auto-generated fallback title. -/
def routeCreateChat (sessionUserId : Option String) (s : StoreState)
    (freshId : String) (now : Nat) (title : Option String) : CreateChatResult :=
  match sessionUserId with
  | none => .unauthenticated
  | some userId =>
      let r := memCreateChat s freshId now { userId := some userId, title := title }
      .created r.1 r.2

/-- Projection used to observe the chat a `CreateChatResult` carries. -/
def createdChat : CreateChatResult → Option Chat
  | .created _ c => some c
  | _ => none

/-- Outcome of `POST /api/chats/:chatId/messages`. -/
inductive CreateMessageResult where
  | unauthenticated
  | badRequest
  | created (s : StoreState) (m : Message)
deriving DecidableEq, Repr

/-- `POST /api/chats/:chatId/messages` (routes.ts): 401 without a session,
400 when `content` or `type` is falsy, otherwise
`storage.createMessage({ chatId, content, type })` — the chat's existence is
never checked. -/
def routeCreateMessage (sessionUserId : Option String) (s : StoreState)
    (freshId : String) (now : Nat) (chatId content type : String) :
    CreateMessageResult :=
  match sessionUserId with
  | none => .unauthenticated
  | some _ =>
      if content.isEmpty || type.isEmpty then .badRequest
      else
        let r := memCreateMessage s freshId now
          { chatId := chatId, type := type, content := content }
        .created r.1 r.2

/-- Projection used to observe the state a `CreateMessageResult` carries. -/
def createdMessageState : CreateMessageResult → Option StoreState
  | .created s _ => some s
  | _ => none

/-! ## Prompt relay: `POST /api/generate` -/

/-- A history entry as the client sends it (`msg.type`, `msg.content`). -/
structure HistMsg where
  type : String
  content : String
deriving DecidableEq, Repr

/-- One line of the rendered history:
`msg.type === 'user' ? 'Human' : 'Assistant'` followed by `: ` and the
content (routes.ts). -/
def labelMsg (m : HistMsg) : String :=
  (if m.type == "user" then "Human" else "Assistant") ++ ": " ++ m.content

/-- `history.map(...).join('\n')` in routes.ts. -/
def historyText (history : List HistMsg) : String :=
  String.intercalate "\n" (history.map labelMsg)

/-- The search-keyword list of routes.ts. -/
def searchKeywords : List String :=
  ["najdi", "vyhledej", "hledej", "co se děje", "aktuální", "novinky",
   "zprávy", "na webu", "google", "search"]

/-- `searchKeywords.some(k => prompt.toLowerCase().includes(k.toLowerCase()))`,
with `lower` standing for the runtime's `toLowerCase` (its Unicode case table
lives in the JS engine, outside this repository, so it is a parameter of the
model as `bcrypt` is). -/
def isSearchQuery (lower : String → String) (prompt : String) : Bool :=
  searchKeywords.any (fun keyword => jsIncludes (lower prompt) (lower keyword))

/-- The template routes.ts uses for a detected search query; `searchResults`
is the text produced by the web search, an effect outside (history, prompt). -/
def searchFinalPrompt (prompt searchResults : String) : String :=
  "Uživatel se ptá: \"" ++ prompt ++
  "\"\n\nZde jsou aktuální informace z webového vyhledávání:\n" ++ searchResults ++
  "\n\nNa základě těchto informací odpověz uživateli v češtině. Pokud informace nejsou dostatečné, řekni to a pokus se poskytnout obecnou odpověď na základě svých znalostí."

/-- Opening block of the roleplay template in routes.ts, up to the rendered
history. -/
def roleplayHeader : String :=
  "You are a helpful AI assistant engaged in a roleplay conversation. Below is the recent conversation history for context - don\x27t directly reference or respond to it, just use it as background memory to maintain conversation flow and character consistency.\n\n=== Recent Conversation History ===\n"

/-- Closing block of the roleplay template, between the rendered history and
the new prompt. -/
def roleplayTail : String :=
  "\n=== End of History ===\n\nNow respond to the current message while staying in character and maintaining conversation continuity:\n\n"

/-- The roleplay prompt of routes.ts: header, rendered history, closing
instruction, then the new prompt. -/
def roleplayFinalPrompt (history : List HistMsg) (prompt : String) : String :=
  roleplayHeader ++ historyText history ++ roleplayTail ++ prompt

/-- `finalPrompt` as assembled by the routes.ts `/api/generate` handler:
start from the prompt; a detected search query swaps in the web-search
template; otherwise a non-empty history array swaps in the roleplay
template.  `lower` is the runtime's `toLowerCase`, as in `isSearchQuery`. -/
def finalPromptOf (lower : String → String) (searchResults : String)
    (history : List HistMsg) (prompt : String) : String :=
  if isSearchQuery lower prompt then searchFinalPrompt prompt searchResults
  else if history.isEmpty then prompt
  else roleplayFinalPrompt history prompt

/-- An HTTP response the upstream generation endpoint produced: its status,
its `content-type` header (`none` when absent), whether its body is valid
JSON, and the body itself. -/
structure UpstreamResponse where
  status : Nat
  contentType : Option String
  jsonValid : Bool
  bodyText : String
deriving DecidableEq, Repr

/-- How the upstream `fetch` settled: a response, an `AbortError` (the abort
signal fired), or a rejection carrying an error message (DNS failure,
connection refused, ...). -/
inductive FetchOutcome where
  | success (r : UpstreamResponse)
  | abortError
  | fetchFailure (msg : String)
deriving DecidableEq, Repr

/-- What the relay sends back to its caller: either the upstream JSON body
passed through, or an HTTP failure status with the `error` field and the
optional `details` field of the JSON body. -/
inductive RelayReply where
  | success (body : String)
  | failure (status : Nat) (error : String) (details : Option String)
deriving DecidableEq, Repr

/-- `response.ok`: status in 200..299. -/
def responseOk (r : UpstreamResponse) : Bool :=
  200 ≤ r.status && r.status ≤ 299

/-- The network-error substrings routes.ts greps the failure message for. -/
def isNetworkErrorMessage (msg : String) : Bool :=
  jsIncludes msg "ENOTFOUND" || jsIncludes msg "ECONNREFUSED" ||
  jsIncludes msg "ETIMEDOUT" || jsIncludes msg "fetch failed"

/-- Outcome classification of the routes.ts `/api/generate` handler.  The
`Bool` component records whether `response.json()` was invoked on the body.
On a 2xx response the body is parsed unconditionally; when that parse throws,
the `SyntaxError` is neither an `AbortError` nor matched by the network-error
substrings (its message is of the `Unexpected token` form), so it is rethrown
to the outer catch, which answers the generic 500. -/
def routesGenerateReply : FetchOutcome → RelayReply × Bool
  | .success r =>
      if !(responseOk r) then
        (.failure 500 "AI service error" (some ("Service responded with " ++ toString r.status)),
         false)
      else if r.jsonValid then (.success r.bodyText, true)
      else (.failure 500 "Failed to process AI request" none, true)
  | .abortError => (.failure 408 "AI service timeout" none, false)
  | .fetchFailure msg =>
      if isNetworkErrorMessage msg then
        (.failure 503 "Network connectivity issue" none, false)
      else (.failure 500 "Failed to process AI request" none, false)

/-- `!contentType || !contentType.includes('application/json')`, negated:
does the header announce JSON? -/
def contentTypeIncludesJson : Option String → Bool
  | none => false
  | some ct => jsIncludes ct "application/json"

/-- Outcome classification of the prod.ts `/api/generate` handler.  Every
thrown error lands in the single catch, which answers 500 with the error's
message as `details`; in particular a 2xx response whose content-type is not
JSON throws before any `response.json()` call.  The `details` strings of the
`jsonValid = false` and `abortError` branches stand for the runtime
exception's message, which this embedding does not compute. -/
def prodGenerateReply : FetchOutcome → RelayReply × Bool
  | .success r =>
      if !(responseOk r) then
        (.failure 500 "Failed to connect to AI service"
          (some ("Ngrok API error: " ++ toString r.status)), false)
      else if !(contentTypeIncludesJson r.contentType) then
        (.failure 500 "Failed to connect to AI service"
          (some "Ngrok endpoint returned non-JSON response (probably HTML error page)"),
         false)
      else if r.jsonValid then (.success r.bodyText, true)
      else (.failure 500 "Failed to connect to AI service" (some "SyntaxError"), true)
  | .abortError => (.failure 500 "Failed to connect to AI service" (some "AbortError"), false)
  | .fetchFailure msg => (.failure 500 "Failed to connect to AI service" (some msg), false)

/-- Client-side cancellation setup of an upstream fetch: the timer that
triggers an abort (if any) and whether the request carries an abort signal. -/
structure FetchConfig where
  timeoutMs : Option Nat
  usesAbortSignal : Bool
deriving DecidableEq, Repr

/-- routes.ts: `const controller = new AbortController(); const timeoutId =
setTimeout(() => controller.abort(), 300000); fetch(fullUrl, { ...,
signal: controller.signal })`. -/
def routesFetchConfig : FetchConfig :=
  { timeoutMs := some 300000, usesAbortSignal := true }

/-- prod.ts: `fetch(fullUrl, { method, headers, body })` — the options carry
no `signal` and no timer is armed. -/
def prodFetchConfig : FetchConfig :=
  { timeoutMs := none, usesAbortSignal := false }

/-! ## Concrete instances used by witnesses and counterexamples -/

/-- A two-entry log buffer: `addLog` called twice on a fresh backend. -/
def demoLogs : List LogEntry :=
  addLog (addLog [] "l1" 0 .info "first" none) "l2" 1 .info "second" none

/-- A store with one chat and two messages, one of them in that chat. -/
def demoStoreC4 : StoreState :=
  { users := [], settings := [],
    chats := [{ id := "c1", userId := some "u1", title := some "t",
                createdAt := 0, updatedAt := 0 }],
    messages := [{ id := "m1", chatId := "c2", type := "user", content := "hi", createdAt := 1 },
                 { id := "m2", chatId := "c1", type := "user", content := "x", createdAt := 2 }] }

/-- The message of `demoStoreC4` that lives outside the deleted chat. -/
def demoMsgC4 : Message :=
  { id := "m1", chatId := "c2", type := "user", content := "hi", createdAt := 1 }

/-- A concrete stand-in for the bcrypt library: tagging hash, matching
verify. -/
def demoApiC2 : BcryptApi :=
  { hash := fun n p => "bch-" ++ toString n ++ "-" ++ p,
    verify := fun p h => h == "bch-12-" ++ p }

/-- A bcrypt stand-in whose verification always fails (a wrong password). -/
def demoApiC8 : BcryptApi :=
  { hash := fun _ p => p, verify := fun _ _ => false }

/-- One registered user, for probing the login endpoint. -/
def demoUsersC8 : List User :=
  [{ id := "id-bob", username := "bob", password := "hashed-pw", createdAt := 0 }]

/-- A two-entry conversation history. -/
def demoHistC3 : List HistMsg :=
  [{ type := "user", content := "hello" }, { type := "ai", content := "hi there" }]

/-- One setting row, for probing `upsertSetting`. -/
def demoSettingsC10 : List Setting :=
  [{ id := "id-k1", key := "k1", value := "old" },
   { id := "id-k2", key := "k2", value := "other" }]

/-! ## C1 — 2xx upstream responses that are not JSON -/

/-- A 2xx upstream response carrying an HTML error page. -/
def htmlUpstreamResponse : UpstreamResponse :=
  { status := 200, contentType := some "text/html", jsonValid := false,
    bodyText := "<html>tunnel error</html>" }

/-- C1, counterexample: on a 2xx upstream response with content-type
`text/html`, the routes.ts `/api/generate` handler does attempt
`response.json()` (the `true` flag) and answers the generic
500 `Failed to process AI request` — not a distinct non-JSON error kind. -/
theorem relay_nonjson_routes_cex :
    responseOk htmlUpstreamResponse = true
    ∧ routesGenerateReply (.success htmlUpstreamResponse)
      = (.failure 500 "Failed to process AI request" none, true) := by
  decide

/-- C1, amended: only the prod.ts variant guards on content-type — a 2xx
non-JSON upstream response is never passed to `response.json()` there
(`false` flag) and surfaces with the distinct detail message naming the
non-JSON body, though under HTTP status 500; the routes.ts variant parses the
body unconditionally and answers the generic 500. -/
theorem relay_nonjson_amended (r : UpstreamResponse)
    (hok : responseOk r = true)
    (hct : contentTypeIncludesJson r.contentType = false)
    (hjson : r.jsonValid = false) :
    prodGenerateReply (.success r)
      = (.failure 500 "Failed to connect to AI service"
          (some "Ngrok endpoint returned non-JSON response (probably HTML error page)"),
         false)
    ∧ routesGenerateReply (.success r)
      = (.failure 500 "Failed to process AI request" none, true) := by
  constructor <;> simp [prodGenerateReply, routesGenerateReply, hok, hct, hjson]

/-- C1, witness: the amended theorem applied to a concrete HTML response. -/
theorem relay_nonjson_amended_witness :
    prodGenerateReply (.success htmlUpstreamResponse)
      = (.failure 500 "Failed to connect to AI service"
          (some "Ngrok endpoint returned non-JSON response (probably HTML error page)"),
         false)
    ∧ routesGenerateReply (.success htmlUpstreamResponse)
      = (.failure 500 "Failed to process AI request" none, true) :=
  relay_nonjson_amended htmlUpstreamResponse (by decide) (by decide) rfl

/-! ## C7 — upstream timeout handling -/

/-- C7, counterexample: the prod.ts variant arms no abort timer at all — its
fetch options carry no signal — and if the upstream call ever fails it
answers 500, never a 408 timeout kind; so the claimed behavior does not hold
in every server variant. -/
theorem relay_timeout_prod_cex :
    prodFetchConfig.usesAbortSignal = false
    ∧ prodFetchConfig.timeoutMs = none
    ∧ prodGenerateReply .abortError
      = (.failure 500 "Failed to connect to AI service" (some "AbortError"), false) := by
  decide

/-- C7, amended: only the routes.ts variant arms a 300000 ms abort timer
whose firing cancels the upstream fetch, and maps the resulting `AbortError`
to the distinct HTTP 408 reply `AI service timeout`. -/
theorem relay_timeout_amended :
    routesGenerateReply .abortError = (.failure 408 "AI service timeout" none, false)
    ∧ routesFetchConfig.timeoutMs = some 300000
    ∧ routesFetchConfig.usesAbortSignal = true := by
  decide

/-! ## C9 — chat creation without a title -/

/-- C9, counterexample: an authenticated `POST /api/chats` with no title
creates a chat whose stored title is absent (`none`) — no auto-generated
title of any pattern is applied by the server. -/
theorem createChat_no_auto_title_cex :
    (createdChat (routeCreateChat (some "alice") emptyStore "c1" 0 none)).map Chat.title
      = some none := by
  decide

/-- C9, amended: the chat-creation route stores the supplied title verbatim
(`undefined` stays `undefined`); the `Chat N` fallback title is applied only
client-side at display time, never persisted. -/
theorem createChat_title_passthrough_amended (uid : String) (s : StoreState)
    (freshId : String) (now : Nat) (title : Option String) :
    routeCreateChat (some uid) s freshId now title
      = .created (memCreateChat s freshId now { userId := some uid, title := title }).1
                 (memCreateChat s freshId now { userId := some uid, title := title }).2
    ∧ ((memCreateChat s freshId now { userId := some uid, title := title }).2).title = title
    ∧ (memCreateChat s freshId now { userId := some uid, title := title }).1.chats
      = s.chats ++ [(memCreateChat s freshId now { userId := some uid, title := title }).2] :=
  ⟨rfl, rfl, rfl⟩

/-! ## C4 — deleteChat in both backends -/

/-- C4, counterexample: deleting a chat id that does not exist makes
`DatabaseStorage.deleteChat` return `true` while `MemStorage.deleteChat`
returns `false` — the two backends do not return "whether the chat existed"
identically. -/
theorem deleteChat_db_returns_true_cex :
    (dbDeleteChat emptyStore "x").2 = true
    ∧ (memDeleteChat emptyStore "x").2 = false
    ∧ (emptyStore.chats.any (fun c => c.id == "x")) = false := by
  decide

/-- C4, amended: both backends first remove every message of the chat and
then the chat itself, leaving no orphan and not touching other rows, and they
produce identical states; but only `MemStorage.deleteChat` returns whether
the chat existed — `DatabaseStorage.deleteChat` returns `true`
unconditionally. -/
theorem deleteChat_amended (s : StoreState) (chatId : String) :
    ((memDeleteChat s chatId).1.messages.all (fun m => !(m.chatId == chatId))) = true
    ∧ ((memDeleteChat s chatId).1.chats.all (fun c => !(c.id == chatId))) = true
    ∧ ((memDeleteChat s chatId).2 = true ↔ ∃ c ∈ s.chats, c.id = chatId)
    ∧ (∀ m ∈ s.messages, (m.chatId == chatId) = false →
        m ∈ (memDeleteChat s chatId).1.messages)
    ∧ (∀ c ∈ s.chats, (c.id == chatId) = false →
        c ∈ (memDeleteChat s chatId).1.chats)
    ∧ (dbDeleteChat s chatId).1 = (memDeleteChat s chatId).1
    ∧ (dbDeleteChat s chatId).2 = true := by
  have hmsg : (memDeleteChat s chatId).1.messages
      = s.messages.filter (fun m => !(m.chatId == chatId)) := rfl
  have hcht : (memDeleteChat s chatId).1.chats
      = s.chats.filter (fun c => !(c.id == chatId)) := rfl
  have hex : (memDeleteChat s chatId).2 = s.chats.any (fun c => c.id == chatId) := rfl
  refine ⟨?_, ?_, ?_, ?_, ?_, rfl, rfl⟩
  · rw [hmsg]
    exact List.all_eq_true.mpr (fun m hm => (List.mem_filter.mp hm).2)
  · rw [hcht]
    exact List.all_eq_true.mpr (fun c hc => (List.mem_filter.mp hc).2)
  · rw [hex]
    simp [List.any_eq_true]
  · intro m hm hmc
    rw [hmsg]
    exact List.mem_filter.mpr ⟨hm, by simp [hmc]⟩
  · intro c hc hcc
    rw [hcht]
    exact List.mem_filter.mpr ⟨hc, by simp [hcc]⟩

/-- C4, witness: the amended theorem applied to a store holding chat `c1`
and a message outside it. -/
theorem deleteChat_amended_witness :
    ((memDeleteChat demoStoreC4 "c1").1.messages.all (fun m => !(m.chatId == "c1"))) = true
    ∧ ((memDeleteChat demoStoreC4 "c1").2 = true ↔ ∃ c ∈ demoStoreC4.chats, c.id = "c1")
    ∧ demoMsgC4 ∈ (memDeleteChat demoStoreC4 "c1").1.messages
    ∧ (dbDeleteChat demoStoreC4 "c1").2 = true := by
  have h := deleteChat_amended demoStoreC4 "c1"
  exact ⟨h.1, h.2.2.1, h.2.2.2.1 demoMsgC4 (by decide) (by decide), h.2.2.2.2.2.2⟩

/-! ## C5 — message creation never checks the chat exists -/

/-- C5, counterexample: on an empty store, an authenticated message creation
for the nonexistent chat `ghost` is not rejected — the message is stored
(one message ends up in the store) while no chat `ghost` exists. -/
theorem createMessage_orphan_cex :
    (createdMessageState (routeCreateMessage (some "u1") emptyStore "m1" 5 "ghost" "hi" "user")).map
        (fun s => (s.messages.length, s.chats.any (fun c => c.id == "ghost")))
      = some (1, false) := by
  decide

/-- C5, amended: the message-creation route checks only authentication and
field presence, then `MemStorage.createMessage` stores the message
unconditionally under the given chatId; when no chat with that id exists the
only difference is that the `updatedAt` bump is skipped (the chats list is
untouched).  The referential invariant is not enforced by this code path. -/
theorem createMessage_no_chat_check_amended (uid : String) (s : StoreState)
    (freshId : String) (now : Nat) (chatId content type : String)
    (hc : content.isEmpty = false) (ht : type.isEmpty = false) :
    routeCreateMessage (some uid) s freshId now chatId content type
      = .created (memCreateMessage s freshId now
                    { chatId := chatId, type := type, content := content }).1
                 (memCreateMessage s freshId now
                    { chatId := chatId, type := type, content := content }).2
    ∧ (memCreateMessage s freshId now
        { chatId := chatId, type := type, content := content }).1.messages
      = s.messages ++ [(memCreateMessage s freshId now
                          { chatId := chatId, type := type, content := content }).2]
    ∧ ((memCreateMessage s freshId now
        { chatId := chatId, type := type, content := content }).2).chatId = chatId
    ∧ (s.chats.find? (fun c => c.id == chatId) = none →
        (memCreateMessage s freshId now
          { chatId := chatId, type := type, content := content }).1.chats = s.chats) := by
  refine ⟨?_, ?_, ?_, ?_⟩
  · simp [routeCreateMessage, hc, ht]
  · cases h : s.chats.find? (fun c => c.id == chatId) <;>
      simp [memCreateMessage, h]
  · cases h : s.chats.find? (fun c => c.id == chatId) <;>
      simp [memCreateMessage, h]
  · intro h
    simp [memCreateMessage, h]

/-- C5, witness: the amended theorem applied to an empty store and the
nonexistent chat `ghost`. -/
theorem createMessage_no_chat_check_amended_witness :
    routeCreateMessage (some "u1") emptyStore "m1" 5 "ghost" "hi" "user"
      = .created (memCreateMessage emptyStore "m1" 5
                    { chatId := "ghost", type := "user", content := "hi" }).1
                 (memCreateMessage emptyStore "m1" 5
                    { chatId := "ghost", type := "user", content := "hi" }).2
    ∧ (memCreateMessage emptyStore "m1" 5
        { chatId := "ghost", type := "user", content := "hi" }).1.chats = emptyStore.chats := by
  have h := createMessage_no_chat_check_amended "u1" emptyStore "m1" 5 "ghost" "hi" "user"
    (by decide) (by decide)
  exact ⟨h.1, h.2.2.2 (by decide)⟩

/-! ## C6 — log buffer capacity and recentLogs ordering -/

/-- C6, counterexample: with two entries in the buffer, `getLogs 0` returns
both of them (JavaScript `slice(-0)` is `slice(0)`), not the zero most
recent entries the claim's "for every n" demands. -/
theorem getLogs_zero_cex :
    (getLogs demoLogs 0).length = 2 ∧ getLogs demoLogs 0 ≠ [] := by
  decide

/-- C6, amended: `addLog` keeps the buffer at no more than 1000 entries,
appending below capacity and evicting exactly the oldest entry at capacity
(FIFO); and for every `n ≥ 1`, `getLogs n` is the newest-first reversal of
the buffer truncated to `n` entries.  For `n = 0` the `slice(-0)` quirk
returns the whole buffer newest-first instead. -/
theorem log_buffer_amended (logs : List LogEntry) (freshId : String) (now : Nat)
    (level : LogLevel) (message : String) (data : Option String) (limit : Nat) :
    (logs.length ≤ 1000 → (addLog logs freshId now level message data).length ≤ 1000)
    ∧ (logs.length < 1000 → addLog logs freshId now level message data
        = logs ++ [{ id := freshId, timestamp := now, level := level,
                     message := message, data := data }])
    ∧ (logs.length = 1000 → addLog logs freshId now level message data
        = logs.drop 1 ++ [{ id := freshId, timestamp := now, level := level,
                            message := message, data := data }])
    ∧ (1 ≤ limit → getLogs logs limit = logs.reverse.take limit) := by
  refine ⟨?_, ?_, ?_, ?_⟩
  · intro hlen
    rw [addLog]
    split
    · simp only [List.length_drop]
      omega
    · simp only [List.length_append, List.length_singleton] at *
      omega
  · intro hlen
    rw [addLog, if_neg (by simp only [List.length_append, List.length_singleton]; omega)]
  · intro hlen
    rw [addLog, if_pos (by simp only [List.length_append, List.length_singleton]; omega)]
    simp only [List.length_append, List.length_singleton, hlen]
    rw [show 1000 + 1 - 1000 = 1 from by norm_num]
    rw [List.drop_append_of_le_length (by omega)]
  · intro hlim
    rcases le_or_lt limit logs.length with hle | hlt
    · have h1 : logs.length - (logs.length - limit) = limit := by omega
      rw [getLogs, if_neg (by omega), List.reverse_drop, h1]
    · have h1 : logs.length - (logs.length - limit) = logs.length := by omega
      rw [getLogs, if_neg (by omega), List.reverse_drop, h1,
          List.take_of_length_le (by simp),
          List.take_of_length_le (by simp; omega)]

/-- C6, witness: the amended theorem applied to the two-entry buffer at
capacity bound 1000 and `n = 1`. -/
theorem log_buffer_amended_witness :
    (addLog demoLogs "l3" 2 LogLevel.info "third" none).length ≤ 1000
    ∧ getLogs demoLogs 1 = demoLogs.reverse.take 1 := by
  have h := log_buffer_amended demoLogs "l3" 2 LogLevel.info "third" none 1
  exact ⟨h.1 (by decide), h.2.2.2 (by decide)⟩

/-! ## C3 — assembly of the final prompt from history and prompt -/

/-- C3, counterexample: for the non-empty prompt `search cats` (detected as a
search query) with a non-empty history, the assembled text depends on the
fetched web-search results — it is not a pure function of (history, prompt) —
and does not contain the role-labeled history entry at all.  Every string
here is ASCII or already lowercase, so `jsToLower` coincides with the
runtime's `toLowerCase` on them. -/
theorem relay_history_search_branch_cex :
    finalPromptOf jsToLower "resultA" [{ type := "user", content := "hello" }] "search cats"
      ≠ finalPromptOf jsToLower "resultB" [{ type := "user", content := "hello" }] "search cats"
    ∧ jsIncludes
        (finalPromptOf jsToLower "resultA" [{ type := "user", content := "hello" }] "search cats")
        (labelMsg { type := "user", content := "hello" }) = false := by
  constructor
  · set_option maxRecDepth 4000 in decide
  · set_option maxRecDepth 4000 in decide

/-- C3, amended: for every case-folding function — in particular the JS
runtime's `toLowerCase` — whenever the handler's keyword test under that
function detects no search query and the history is non-empty, the text sent
upstream is exactly the roleplay template: the fixed instruction header,
every history entry labeled by role in original order (joined by newlines),
the closing instruction, then the new prompt; and the assembly is independent
of the web-search results, hence a function of (history, prompt) alone. -/
theorem relay_history_assembly_amended (lower : String → String)
    (searchResults searchResults2 : String)
    (history : List HistMsg) (prompt : String)
    (hs : isSearchQuery lower prompt = false) (hne : history.isEmpty = false) :
    finalPromptOf lower searchResults history prompt
      = roleplayHeader ++ String.intercalate "\n" (history.map labelMsg)
        ++ roleplayTail ++ prompt
    ∧ finalPromptOf lower searchResults history prompt
      = finalPromptOf lower searchResults2 history prompt := by
  constructor <;> simp [finalPromptOf, hs, hne, roleplayFinalPrompt, historyText]

/-- C3, witness: the amended theorem applied to a concrete two-entry history
and an ASCII prompt free of search keywords (on these strings, and on the
already-lowercase keyword list, `jsToLower` is the runtime's `toLowerCase`). -/
theorem relay_history_assembly_amended_witness :
    finalPromptOf jsToLower "X" demoHistC3 "how are you today"
      = roleplayHeader ++ String.intercalate "\n" (demoHistC3.map labelMsg)
        ++ roleplayTail ++ "how are you today"
    ∧ finalPromptOf jsToLower "X" demoHistC3 "how are you today"
      = finalPromptOf jsToLower "Y" demoHistC3 "how are you today" :=
  relay_history_assembly_amended jsToLower "X" "Y" demoHistC3 "how are you today"
    (by decide) (by decide)

/-! ## C2 — password storage and verification -/

/-- C2, counterexample: the prod.ts registration handler stores the supplied
password verbatim (`pw123` ends up in `User.password`), and the prod.ts
login succeeds by comparing that stored plaintext with the supplied plaintext
by string equality. -/
theorem auth_password_plaintext_prod_cex :
    (prodRegister [] "u1" 0 "alice" "pw123").1.map User.password = ["pw123"]
    ∧ prodLogin (prodRegister [] "u1" 0 "alice" "pw123").1 "alice" "pw123"
      = { status := 200, error := none, userId := some "u1", username := some "alice" } := by
  decide

/-- C2, amended: in the routes.ts variant, registration stores
`bcrypt.hash(password, 12)` — never the plaintext — and login decides purely
by `bcrypt.compare` against that stored hash; but in the prod.ts variant
registration stores the plaintext password verbatim and login compares
plaintext against stored plaintext by string equality. -/
theorem auth_password_hashing_amended (api : BcryptApi) (users : List User)
    (freshId : String) (now : Nat) (username password : String)
    (hu : username.isEmpty = false) (hp : password.isEmpty = false)
    (hfind : findUserByUsername users username = none) :
    (routesRegister api users freshId now username password).1
      = users ++ [{ id := freshId, username := username,
                    password := api.hash 12 password, createdAt := now }]
    ∧ (∀ pw, pw.isEmpty = false →
        routesLogin api (routesRegister api users freshId now username password).1 username pw
          = if api.verify pw (api.hash 12 password) then
              { status := 200, error := none, userId := some freshId,
                username := some username }
            else
              { status := 401, error := some "Invalid credentials",
                userId := none, username := none })
    ∧ (prodRegister users freshId now username password).1
      = users ++ [{ id := freshId, username := username,
                    password := password, createdAt := now }] := by
  refine ⟨?_, ?_, ?_⟩
  · simp [routesRegister, hu, hp, hfind]
  · intro pw hpw
    have hreg : (routesRegister api users freshId now username password).1
        = users ++ [{ id := freshId, username := username,
                      password := api.hash 12 password, createdAt := now }] := by
      simp [routesRegister, hu, hp, hfind]
    rw [hreg]
    simp only [findUserByUsername] at hfind
    simp [routesLogin, hu, hpw, findUserByUsername, List.find?_append, hfind]
  · simp [prodRegister, hu, hp, hfind]

/-- C2, witness: the amended theorem applied to a fresh user list and a
concrete bcrypt stand-in; the login branch is evaluated at the matching
password. -/
theorem auth_password_hashing_amended_witness :
    (routesRegister demoApiC2 [] "u1" 0 "alice" "secret123").1
      = [{ id := "u1", username := "alice", password := demoApiC2.hash 12 "secret123",
           createdAt := 0 }]
    ∧ routesLogin demoApiC2 (routesRegister demoApiC2 [] "u1" 0 "alice" "secret123").1
        "alice" "secret123"
      = { status := 200, error := none, userId := some "u1", username := some "alice" }
    ∧ (prodRegister [] "u1" 0 "alice" "secret123").1
      = [{ id := "u1", username := "alice", password := "secret123", createdAt := 0 }] := by
  have h := auth_password_hashing_amended demoApiC2 [] "u1" 0 "alice" "secret123"
    (by decide) (by decide) rfl
  refine ⟨by simpa using h.1, ?_, by simpa using h.2.2⟩
  rw [h.2.1 "secret123" (by decide)]
  decide

/-! ## C8 — uniform login failure responses -/

/-- C8, confirmed: an unknown username and a known username with a
non-matching password produce the very same routes.ts login reply — status
401, body `Invalid credentials`, no session bound — so the response does not
reveal whether the username exists. -/
theorem login_uniform_error (api : BcryptApi) (users : List User)
    (u1 p1 u2 p2 : String) (usr : User)
    (h1 : u1.isEmpty = false) (h2 : p1.isEmpty = false)
    (h3 : u2.isEmpty = false) (h4 : p2.isEmpty = false)
    (h5 : findUserByUsername users u1 = none)
    (h6 : findUserByUsername users u2 = some usr)
    (h7 : api.verify p2 usr.password = false) :
    routesLogin api users u1 p1 = routesLogin api users u2 p2
    ∧ routesLogin api users u1 p1
      = { status := 401, error := some "Invalid credentials",
          userId := none, username := none } := by
  constructor <;> simp [routesLogin, h1, h2, h3, h4, h5, h6, h7]

/-- C8, witness: the theorem applied to a store holding only user `bob`,
probing the unknown username `alice` and `bob` with a wrong password. -/
theorem login_uniform_error_witness :
    routesLogin demoApiC8 demoUsersC8 "alice" "x"
      = routesLogin demoApiC8 demoUsersC8 "bob" "wrong"
    ∧ routesLogin demoApiC8 demoUsersC8 "alice" "x"
      = { status := 401, error := some "Invalid credentials",
          userId := none, username := none } :=
  login_uniform_error demoApiC8 demoUsersC8 "alice" "x" "bob" "wrong"
    { id := "id-bob", username := "bob", password := "hashed-pw", createdAt := 0 }
    (by decide) (by decide) (by decide) (by decide) rfl rfl rfl

/-! ## C10 — upsertSetting touches only the targeted key -/

/-- Rewriting rows through a key-preserving function commutes with the
key-based lookup. -/
theorem find?_map_keyed (g : Setting → Setting) (hg : ∀ st, (g st).key = st.key)
    (k : String) (l : List Setting) :
    (l.map g).find? (fun st => st.key == k) = (l.find? (fun st => st.key == k)).map g := by
  induction l with
  | nil => rfl
  | cons st rest ih =>
      simp only [List.map_cons, List.find?_cons, hg st]
      cases hst : (st.key == k) with
      | true => rfl
      | false => simpa using ih

/-- A row-rewriting function that only touches rows with key `key` leaves
the lookup of any other key unchanged. -/
theorem find?_map_update_ne (settings : List Setting) (key k : String)
    (g : Setting → Setting) (hg : ∀ st, (g st).key = st.key)
    (hid : ∀ st, (st.key == key) = false → g st = st)
    (hkne : k ≠ key) :
    (settings.map g).find? (fun st => st.key == k)
      = settings.find? (fun st => st.key == k) := by
  rw [find?_map_keyed g hg]
  cases hf : settings.find? (fun st => st.key == k) with
  | none => rfl
  | some ex2 =>
      have h2 : ex2.key = k := by simpa using List.find?_some hf
      have h3 : (ex2.key == key) = false := by
        rw [h2]
        exact beq_eq_false_iff_ne.mpr hkne
      simp [hid ex2 h3]

/-- C10, confirmed: for a key already present, both backends' `upsertSetting`
return the stored record with only its value replaced (id and key are those
of the existing record), store exactly that record under the key, add no row;
for an absent key they append a fresh-id record; and in both cases lookups of
every other key are untouched. -/
theorem upsertSetting_frame (settings : List Setting) (freshId key value : String) :
    (∀ ex, findSetting settings key = some ex →
        (upsertSetting settings freshId key value).2 = { ex with value := value }
        ∧ (upsertSetting settings freshId key value).1.length = settings.length
        ∧ findSetting (upsertSetting settings freshId key value).1 key
          = some { ex with value := value }
        ∧ (dbUpsertSetting settings freshId key value).2 = { ex with value := value }
        ∧ (dbUpsertSetting settings freshId key value).1.length = settings.length
        ∧ findSetting (dbUpsertSetting settings freshId key value).1 key
          = some { ex with value := value })
    ∧ (findSetting settings key = none →
        (upsertSetting settings freshId key value).1
          = settings ++ [{ id := freshId, key := key, value := value }]
        ∧ (dbUpsertSetting settings freshId key value).1
          = settings ++ [{ id := freshId, key := key, value := value }])
    ∧ (∀ k, (k == key) = false →
        findSetting (upsertSetting settings freshId key value).1 k = findSetting settings k
        ∧ findSetting (dbUpsertSetting settings freshId key value).1 k
          = findSetting settings k) := by
  refine ⟨?_, ?_, ?_⟩
  · intro ex hex
    have hex' : settings.find? (fun st => st.key == key) = some ex := hex
    have hexkey : ex.key = key := by simpa using List.find?_some hex'
    have hgmem : ∀ st : Setting,
        ((if st.key == key then ({ ex with value := value } : Setting) else st)).key
          = st.key := by
      intro st
      by_cases h : (st.key == key) = true
      · rw [if_pos h]
        show ex.key = st.key
        rw [hexkey]
        exact (eq_of_beq h).symm
      · rw [if_neg h]
    have hgdb : ∀ st : Setting,
        ((if st.key == key then ({ st with value := value } : Setting) else st)).key
          = st.key := by
      intro st
      by_cases h : (st.key == key) = true
      · rw [if_pos h]
      · rw [if_neg h]
    have hm1 : (upsertSetting settings freshId key value).1
        = settings.map
            (fun st => if st.key == key then ({ ex with value := value } : Setting)
                       else st) := by
      simp [upsertSetting, hex]
    have hm2 : (upsertSetting settings freshId key value).2
        = { ex with value := value } := by
      simp [upsertSetting, hex]
    have hd1 : (dbUpsertSetting settings freshId key value).1
        = settings.map
            (fun st => if st.key == key then ({ st with value := value } : Setting)
                       else st) := by
      simp [dbUpsertSetting, hex]
    have hd2 : (dbUpsertSetting settings freshId key value).2
        = { ex with value := value } := by
      simp [dbUpsertSetting, hex]
    refine ⟨hm2, ?_, ?_, hd2, ?_, ?_⟩
    · rw [hm1, List.length_map]
    · show (upsertSetting settings freshId key value).1.find? (fun st => st.key == key)
        = some { ex with value := value }
      rw [hm1, find?_map_keyed _ hgmem key settings, hex']
      simp [hexkey]
    · rw [hd1, List.length_map]
    · show (dbUpsertSetting settings freshId key value).1.find? (fun st => st.key == key)
        = some { ex with value := value }
      rw [hd1, find?_map_keyed _ hgdb key settings, hex']
      simp [hexkey]
  · intro hnone
    constructor
    · simp [upsertSetting, hnone]
    · simp [dbUpsertSetting, hnone]
  · intro k hk
    have hkne : k ≠ key := by
      intro h
      subst h
      simp at hk
    cases hex : findSetting settings key with
    | some ex =>
        have hex' : settings.find? (fun st => st.key == key) = some ex := hex
        have hexkey : ex.key = key := by simpa using List.find?_some hex'
        have hgmem : ∀ st : Setting,
            ((if st.key == key then ({ ex with value := value } : Setting) else st)).key
              = st.key := by
          intro st
          by_cases h : (st.key == key) = true
          · rw [if_pos h]
            show ex.key = st.key
            rw [hexkey]
            exact (eq_of_beq h).symm
          · rw [if_neg h]
        have hgdb : ∀ st : Setting,
            ((if st.key == key then ({ st with value := value } : Setting) else st)).key
              = st.key := by
          intro st
          by_cases h : (st.key == key) = true
          · rw [if_pos h]
          · rw [if_neg h]
        have hm1 : (upsertSetting settings freshId key value).1
            = settings.map
                (fun st => if st.key == key then ({ ex with value := value } : Setting)
                           else st) := by
          simp [upsertSetting, hex]
        have hd1 : (dbUpsertSetting settings freshId key value).1
            = settings.map
                (fun st => if st.key == key then ({ st with value := value } : Setting)
                           else st) := by
          simp [dbUpsertSetting, hex]
        constructor
        · show (upsertSetting settings freshId key value).1.find? (fun st => st.key == k)
            = settings.find? (fun st => st.key == k)
          rw [hm1]
          exact find?_map_update_ne settings key k _ hgmem
            (fun st h => by rw [if_neg (by simp [h])]) hkne
        · show (dbUpsertSetting settings freshId key value).1.find? (fun st => st.key == k)
            = settings.find? (fun st => st.key == k)
          rw [hd1]
          exact find?_map_update_ne settings key k _ hgdb
            (fun st h => by rw [if_neg (by simp [h])]) hkne
    | none =>
        have happend : ∀ l : List Setting,
            l = settings ++ [{ id := freshId, key := key, value := value }] →
            l.find? (fun st => st.key == k) = settings.find? (fun st => st.key == k) := by
          intro l hl
          subst hl
          rw [List.find?_append]
          have hone : (({ id := freshId, key := key, value := value } : Setting).key == k)
              = false := by
            show (key == k) = false
            exact beq_eq_false_iff_ne.mpr (Ne.symm hkne)
          simp [List.find?_cons, hone]
        constructor
        · show (upsertSetting settings freshId key value).1.find? (fun st => st.key == k)
            = settings.find? (fun st => st.key == k)
          exact happend _ (by simp [upsertSetting, hex])
        · show (dbUpsertSetting settings freshId key value).1.find? (fun st => st.key == k)
            = settings.find? (fun st => st.key == k)
          exact happend _ (by simp [dbUpsertSetting, hex])

/-- C10, witness: the frame theorem applied to a two-row settings store,
updating the present key `k1` and observing the untouched key `k2`. -/
theorem upsertSetting_frame_witness :
    (upsertSetting demoSettingsC10 "fresh" "k1" "new").2
      = { id := "id-k1", key := "k1", value := "new" }
    ∧ (upsertSetting demoSettingsC10 "fresh" "k1" "new").1.length
      = demoSettingsC10.length
    ∧ findSetting (upsertSetting demoSettingsC10 "fresh" "k1" "new").1 "k2"
      = findSetting demoSettingsC10 "k2"
    ∧ findSetting (dbUpsertSetting demoSettingsC10 "fresh" "k1" "new").1 "k2"
      = findSetting demoSettingsC10 "k2" := by
  have h := upsertSetting_frame demoSettingsC10 "fresh" "k1" "new"
  have h1 := h.1 { id := "id-k1", key := "k1", value := "old" } rfl
  have h2 := h.2.2 "k2" (by decide)
  exact ⟨h1.1, h1.2.1, h2.1, h2.2⟩

end ChatApp
